import Mathlib

/-!
# Verification of the Car Pics backend orchestration (src/backend/app/main.py)

Shallow embedding of the backend's pure orchestration logic:
* Python string helpers (`str.strip`, truthy-`or`, `str.format` restricted to
  the single keyword field `user_prompt`, `base64.b64encode`);
* `build_prompt` (the Prompt Merger);
* `refine_user_prompt` (the Prompt Refiner), with the two external
  text-model invocations supplied as oracle outcomes (`Except Unit Resp`);
* `generate_image_and_text` (the streamed Image/Text Generator), over an
  explicit list of streamed chunks;
* the `/generate` endpoint orchestrator `generate`, with the provider-client
  constructor, refiner and generator outcomes supplied as oracles, returning
  the HTTP outcome together with an event trace (client construction,
  context bind/unbind, refiner call, generator call).
-/

/-- Python `str.isspace`-style whitespace test used by `str.strip()`. -/
def isPySpace (c : Char) : Bool := c.isWhitespace

/-- Python `s.strip()`: drop leading and trailing whitespace. -/
def pyStrip (s : String) : String :=
  ⟨((s.data.dropWhile isPySpace).reverse.dropWhile isPySpace).reverse⟩

/-- Python truthy-`or` on strings: `a or b` yields `b` when `a` is empty. -/
def pyOrStr (a b : String) : String := if a = "" then b else a

/-- Python truthy-`or` on an optional string against a string default:
`x or d` yields `d` when `x` is `None` or the empty string. -/
def pyOrOptStr (x : Option String) (d : String) : String :=
  match x with
  | none => d
  | some s => if s = "" then d else s

/-- The character `{`. -/
def lbrace : Char := Char.ofNat 123

/-- The character `}`. -/
def rbrace : Char := Char.ofNat 125

/-- The characters of the only keyword field the code substitutes,
`user_prompt`. -/
def upField : List Char := "user_prompt".data

/-- Scanner state for the `str.format` model: scanning literal text, just
saw `\x7b`, just saw `\x7d` in literal text, or inside a replacement field. -/
inductive PfMode | lit | afterL | afterR | field
deriving DecidableEq

/-- Model of CPython `str.format` scanning restricted to the call
`template.format(user_prompt=v)`: literal text passes through, `\x7b\x7b` and
`\x7d\x7d` unescape to single braces, the field `\x7buser_prompt\x7d` is replaced by
`v`, and every other replacement field, an unmatched brace, or a lone
closing brace yields `none` (Python raises `KeyError`/`IndexError`/
`ValueError` there).  In `field` mode, `acc` holds the field's characters
so far, reversed. -/
def pfGo (v : String) : PfMode → List Char → List Char → Option (List Char)
  | .lit, _, [] => some []
  | .lit, _, c :: r =>
    if c = lbrace then pfGo v .afterL [] r
    else if c = rbrace then pfGo v .afterR [] r
    else (fun t => c :: t) <$> pfGo v .lit [] r
  | .afterL, _, [] => none
  | .afterL, _, c :: r =>
    if c = lbrace then (fun t => lbrace :: t) <$> pfGo v .lit [] r
    else if c = rbrace then none
    else pfGo v .field [c] r
  | .afterR, _, [] => none
  | .afterR, _, c :: r =>
    if c = rbrace then (fun t => rbrace :: t) <$> pfGo v .lit [] r else none
  | .field, _, [] => none
  | .field, acc, c :: r =>
    if c = rbrace then
      if acc.reverse = upField then (fun t => v.data ++ t) <$> pfGo v .lit [] r
      else none
    else if c = lbrace then none
    else pfGo v .field (c :: acc) r

/-- `template.format(user_prompt=v)` as an `Option`: `none` models the
raised exception. -/
def pyFormat (template v : String) : Option String :=
  (pfGo v .lit [] template.data).map (fun cs => ⟨cs⟩)

/-- A style entry as loaded from YAML: a string-valued dict. -/
abbrev StyleDict := List (String × String)

/-- The `styles` mapping of `prompts.yml`: key -> style dict. -/
abbrev StyleMap := List (String × StyleDict)

/-- Python `d.get(k)` on a string dict. -/
def dictGet (d : StyleDict) (k : String) : Option String := d.lookup k

/-- `(style_key or "none").strip()` from `build_prompt`. -/
def resolveStyleKey (style_key : Option String) : String :=
  pyStrip (pyOrOptStr style_key "none")

/-- The template string actually used by `build_prompt` for a truthy style
dict `d`: `(style.get("template") or "\x7buser_prompt\x7d").strip()`. -/
def styleTemplate (d : StyleDict) : String :=
  pyStrip (pyOrStr ((dictGet d "template").getD "") "\x7buser_prompt\x7d")

/-- `build_prompt(user_prompt, style_key)` (main.py lines 69-83): merge the
selected style template with the user prompt.  `STYLE_MAP` is passed
explicitly (it is loaded from `prompts.yml` at startup).  A missing or
falsy (empty-dict) style returns the stripped user prompt; otherwise the
stripped prompt is substituted into the template, falling back to
two-line concatenation when substitution raises. -/
def build_prompt (STYLE_MAP : StyleMap) (user_prompt : String)
    (style_key : Option String) : String :=
  let key := resolveStyleKey style_key
  match STYLE_MAP.lookup key with
  | none => pyStrip user_prompt
  | some [] => pyStrip user_prompt
  | some d =>
    let template := styleTemplate d
    match pyFormat template (pyStrip user_prompt) with
    | some s => s
    | none => pyStrip (template ++ "\n\n" ++ user_prompt)

-- ---------------------------------------------------------------------
-- Prompt Refiner (main.py lines 85-153)
-- ---------------------------------------------------------------------

/-- A part of a text-model response candidate: `getattr(p, "text", ...)`. -/
structure RPart where
  text : Option String

/-- `cand.content`: its `parts` attribute may be `None`. -/
structure RContent where
  parts : Option (List RPart)

/-- A response candidate; `content` may be `None` (then `.parts` raises). -/
structure RCand where
  content : Option RContent

/-- A text-model response.  Accessing the `text` property can itself raise
(modelled by `.error`); otherwise it yields `None` or a string.
`candidates` may be `None` (then `[0]` raises). -/
structure Resp where
  text : Except String (Option String)
  candidates : Option (List RCand)

/-- Lines 137-141: `refined = getattr(resp, "text", "") or ""` guarded by
`try/except` that resets to the empty string. -/
def respPrimaryText (resp : Resp) : String :=
  match resp.text with
  | .error _ => ""
  | .ok t => t.getD ""

/-- Lines 143-149: the fallback extraction
`"".join(getattr(p, "text", "") for p in (cand.content.parts or []) if getattr(p, "text", None))`;
`none` models the exception paths (`candidates` is `None` or empty, or
`content` is `None`). -/
def respFallbackJoin (resp : Resp) : Option String :=
  match resp.candidates with
  | none => none
  | some [] => none
  | some (c :: _) =>
    match c.content with
    | none => none
    | some ct =>
      some (String.join ((ct.parts.getD []).filterMap (fun p =>
        match p.text with
        | none => none
        | some t => if t = "" then none else some t)))

/-- Lines 137-151: the value of the local `refined` just before the final
`return`: the primary text, else the candidate-parts join, else (on an
extraction exception) the stripped user prompt. -/
def extractCore (user_prompt : String) (resp : Resp) : String :=
  let refined1 := respPrimaryText resp
  if refined1 = "" then
    match respFallbackJoin resp with
    | some j => j
    | none => pyStrip user_prompt
  else refined1

/-- Lines 137-153: extract the refined directive from a response, ending at
`return (refined or user_prompt).strip()`. -/
def extractRefined (user_prompt : String) (resp : Resp) : String :=
  pyStrip (pyOrStr (extractCore user_prompt resp) user_prompt)

/-- Text extraction from the response yields nothing: the primary `text`
field is empty (or raising) and the candidate-parts join is empty (or its
extraction raises). -/
def extractionEmpty (resp : Resp) : Prop :=
  respPrimaryText resp = "" ∧ (respFallbackJoin resp).getD "" = ""

instance (resp : Resp) : Decidable (extractionEmpty resp) := by
  unfold extractionEmpty; infer_instance

/-- Which of the two `generate_content` invocations were made. -/
inductive CallMode | thinking | plain
deriving DecidableEq, Repr

/-- Lines 124-135: call the model with `thinking_config` first; only if that
raises, call once more without it.  Returns the response (or the propagated
exception of the second call) and the list of invocations made. -/
def refineModelCalls (thinkCall plainCall : Except String Resp) :
    Except String Resp × List CallMode :=
  match thinkCall with
  | .ok r => (.ok r, [.thinking])
  | .error _ => (plainCall, [.thinking, .plain])

/-- `refine_user_prompt` (lines 86-153).  The two possible
`client.models.generate_content` outcomes are supplied as oracles; the
other source parameters (`model_name`, `style_key`, `style_label`,
`style_desc`, `has_image`) only shape the instruction text sent to the
model and are absorbed into those oracles.  Returns the refined string (or
the propagated exception) together with the invocations made. -/
def refine_user_prompt (user_prompt : String)
    (thinkCall plainCall : Except String Resp) :
    Except String String × List CallMode :=
  let rc := refineModelCalls thinkCall plainCall
  match rc.1 with
  | .error e => (.error e, rc.2)
  | .ok resp => (.ok (extractRefined user_prompt resp), rc.2)

-- ---------------------------------------------------------------------
-- Image/Text Generator (main.py lines 155-181)
-- ---------------------------------------------------------------------

/-- `part.inline_data`: MIME type and raw bytes, each possibly `None`. -/
structure InlineData where
  mime_type : Option String
  data : Option (List Nat)
deriving DecidableEq

/-- A streamed part: `text` and `inline_data` attributes. -/
structure GPart where
  text : Option String
  inline_data : Option InlineData
deriving DecidableEq

/-- A streamed candidate's `content`; `parts` may be `None`. -/
structure GContent where
  parts : Option (List GPart)
deriving DecidableEq

/-- A streamed candidate; `content` may be `None`. -/
structure GCand where
  content : Option GContent
deriving DecidableEq

/-- One streamed chunk; `candidates` may be `None`. -/
structure Chunk where
  candidates : Option (List GCand)
deriving DecidableEq

/-- One entry of the returned image list. -/
structure ImgRec where
  mime_type : String
  base64 : String
  data_url : String
deriving DecidableEq, Repr

/-- The base64 alphabet (RFC 4648), indexed 0-63. -/
def b64Char (i : Nat) : Char :=
  "ABCDEFGHIJKLMNOPQRSTUVWXYZabcdefghijklmnopqrstuvwxyz0123456789+/".data.getD i 'A'

/-- `base64.b64encode` on a byte list, three input bytes per four output
characters, `=`-padded. -/
def b64encodeAux : List Nat → List Char
  | [] => []
  | [a] => [b64Char (a / 4), b64Char (a % 4 * 16), '=', '=']
  | [a, b] => [b64Char (a / 4), b64Char (a % 4 * 16 + b / 16), b64Char (b % 16 * 4), '=']
  | a :: b :: c :: rest =>
    b64Char (a / 4) :: b64Char (a % 4 * 16 + b / 16) ::
      b64Char (b % 16 * 4 + c / 64) :: b64Char (c % 64) :: b64encodeAux rest

/-- `base64.b64encode(bytes).decode("ascii")`. -/
def b64encode (bs : List Nat) : String := ⟨b64encodeAux bs⟩

/-- Lines 175-179: the record appended for an inline-data part. -/
def mkImgRec (idata : InlineData) (bytes : List Nat) : ImgRec :=
  let mime := pyOrOptStr idata.mime_type "image/png"
  let b64 := b64encode bytes
  { mime_type := mime, base64 := b64, data_url := "data:" ++ mime ++ ";base64," ++ b64 }

/-- Line 170-171: the first part of the first candidate, provided
`candidates`, `content` and `parts` are all truthy. -/
def chunkFirstPart (ch : Chunk) : Option GPart :=
  match ch.candidates with
  | some (c :: _) =>
    match c.content with
    | some ct =>
      match ct.parts with
      | some (p :: _) => some p
      | some [] => none
      | none => none
    | none => none
  | some [] => none
  | none => none

/-- The `elif` branch (lines 174-179): append an image record when the part
has truthy `inline_data` with truthy (non-empty) bytes. -/
def stepInline (st : List String × List ImgRec) (p : GPart) :
    List String × List ImgRec :=
  match p.inline_data with
  | none => st
  | some idata =>
    match idata.data with
    | none => st
    | some [] => st
    | some bs => (st.1, st.2 ++ [mkImgRec idata bs])

/-- The loop body (lines 170-179) acting on the accumulator pair
(text fragments, image records). -/
def stepChunk (st : List String × List ImgRec) (ch : Chunk) :
    List String × List ImgRec :=
  match chunkFirstPart ch with
  | none => st
  | some p =>
    match p.text with
    | some t => if t = "" then stepInline st p else (st.1 ++ [t], st.2)
    | none => stepInline st p

/-- The generator's return value. -/
structure GenOut where
  text : String
  images : List ImgRec
deriving DecidableEq, Repr

/-- `generate_image_and_text` (lines 156-181) over an explicit list of
streamed chunks: fold the loop body, then return the joined, stripped text
and the image list. -/
def generate_image_and_text (chunks : List Chunk) : GenOut :=
  let st := chunks.foldl stepChunk ([], [])
  { text := pyStrip (String.join st.1), images := st.2 }

/-- Specification-style reducer: the text fragment a chunk contributes
(the first part's truthy text), if any. -/
def specText (ch : Chunk) : Option String :=
  match chunkFirstPart ch with
  | none => none
  | some p =>
    match p.text with
    | some t => if t = "" then none else some t
    | none => none

/-- Specification-style reducer: the image record a part without truthy
text contributes, if any. -/
def specImageInline (p : GPart) : Option ImgRec :=
  match p.inline_data with
  | none => none
  | some idata =>
    match idata.data with
    | some (b :: bs) => some (mkImgRec idata (b :: bs))
    | some [] => none
    | none => none

/-- Specification-style reducer: the image record a chunk contributes, if
any (only when its first part carries no truthy text). -/
def specImage (ch : Chunk) : Option ImgRec :=
  match chunkFirstPart ch with
  | none => none
  | some p =>
    match p.text with
    | some t => if t = "" then specImageInline p else none
    | none => specImageInline p

-- ---------------------------------------------------------------------
-- Request Orchestrator: the /generate endpoint (main.py lines 186-258)
-- ---------------------------------------------------------------------

/-- Observable events of one request, in order of occurrence. -/
inductive Ev
  | ctorAttempt     -- `genai.Client(api_key=...)` is invoked
  | ctxSet          -- `_current_client.set(client)`
  | ctxReset        -- `_current_client.reset(token)` in the `finally`
  | refinerCalled   -- `refine_user_prompt(...)` is invoked
  | generatorCalled -- `generate_image_and_text(...)` is invoked
deriving DecidableEq, Repr

/-- The uploaded file: declared MIME type and the bytes `await image.read()`
yields. -/
structure ImageFile where
  content_type : Option String
  data : List Nat
deriving DecidableEq

/-- The HTTP outcome of the endpoint: a 200 JSON body or an
`HTTPException`-style status and detail. -/
inductive Outcome
  | ok (text : String) (images : List ImgRec)
  | httpErr (status : Nat) (detail : String)
deriving DecidableEq, Repr

/-- `MAX_IMAGE_BYTES = 7 * 1024 * 1024` (line 54). -/
def MAX_IMAGE_BYTES : Nat := 7 * 1024 * 1024

/-- `s.startswith(pre)`. -/
def pyStartsWith (s pre : String) : Bool := pre.data.isPrefixOf s.data

/-- Lines 231-240: the image checks, in source order; `some (status, detail)`
is the `HTTPException` raised, `none` means the image part is accepted (or
absent). -/
def validateImage (image : Option ImageFile) : Option (Nat × String) :=
  match image with
  | none => none
  | some img =>
    let ctype := img.content_type.getD ""
    if pyStartsWith ctype "image/" = false then
      some (400, "image must be of type image/*")
    else if img.data = [] then some (400, "image file is empty")
    else if MAX_IMAGE_BYTES < img.data.length then
      some (400, "image too large (>7MB)")
    else none

/-- The `try` block of the endpoint (lines 208-250): resolve the style,
refine (outcome supplied as the oracle `refineRes`), merge, validate the
image part, generate (oracle `genRes`).  A raised `HTTPException` is
re-raised unchanged (lines 252-253); any other exception becomes a
500 (lines 254-255). -/
def generateBody (STYLE_MAP : StyleMap) (image : Option ImageFile)
    (style : Option String) (refineRes : Except String String)
    (genRes : Except String GenOut) : Outcome × List Ev :=
  match refineRes with
  | .error e => (.httpErr 500 ("Generation failed: " ++ e), [.refinerCalled])
  | .ok refined =>
    let style_key := pyStrip (pyOrOptStr style "none")
    let final_prompt := build_prompt STYLE_MAP refined (some style_key)
    match validateImage image with
    | some sd => (.httpErr sd.1 sd.2, [.refinerCalled])
    | none =>
      match genRes with
      | .error e =>
        (.httpErr 500 ("Generation failed: " ++ e), [.refinerCalled, .generatorCalled])
      | .ok r =>
        let _ := final_prompt
        (.ok r.text r.images, [.refinerCalled, .generatorCalled])

/-- The `/generate` endpoint (lines 187-258).  External effects are
oracles: `clientCtor` is the outcome of `genai.Client(...)`, `refineRes`
the outcome of the whole `refine_user_prompt` call, `genRes` the outcome of
`generate_image_and_text`.  Returns the HTTP outcome and the event trace;
the `finally` block appends `ctxReset` to every path entered after the
context was set. -/
def generate (STYLE_MAP : StyleMap) (prompt : String) (image : Option ImageFile)
    (style : Option String) (api_key : String)
    (clientCtor : Except String Unit) (refineRes : Except String String)
    (genRes : Except String GenOut) : Outcome × List Ev :=
  if pyStrip api_key = "" then (.httpErr 400 "api_key is required", [])
  else if pyStrip prompt = "" then (.httpErr 400 "prompt is required", [])
  else
    match clientCtor with
    | .error _ => (.httpErr 400 "Invalid api_key provided", [.ctorAttempt])
    | .ok _ =>
      let body := generateBody STYLE_MAP image style refineRes genRes
      (body.1, .ctorAttempt :: .ctxSet :: body.2 ++ [.ctxReset])

-- ---------------------------------------------------------------------
-- Helper lemmas
-- ---------------------------------------------------------------------

theorem pyStrip_mk (l : List Char) :
    pyStrip ⟨l⟩ = ⟨List.rdropWhile isPySpace (List.dropWhile isPySpace l)⟩ := rfl

theorem dropWhile_rdropWhile_dropWhile {α : Type} (p : α → Bool) (l : List α) :
    List.dropWhile p (List.rdropWhile p (List.dropWhile p l)) =
      List.rdropWhile p (List.dropWhile p l) := by
  have hyy : List.dropWhile p (List.dropWhile p l) = List.dropWhile p l :=
    List.dropWhile_idempotent p l
  have hpre : List.rdropWhile p (List.dropWhile p l) <+: List.dropWhile p l :=
    List.rdropWhile_prefix p (List.dropWhile p l)
  rw [List.dropWhile_eq_self_iff]
  intro hl
  have hlen : 0 < (List.dropWhile p l).length :=
    Nat.lt_of_lt_of_le hl hpre.length_le
  have h0 : (List.rdropWhile p (List.dropWhile p l)).get ⟨0, hl⟩ =
      (List.dropWhile p l).get ⟨0, hlen⟩ := by
    simpa using hpre.getElem (by simpa using hl)
  rw [h0]
  exact (List.dropWhile_eq_self_iff.mp hyy) hlen

theorem pyStrip_idem (s : String) : pyStrip (pyStrip s) = pyStrip s := by
  obtain ⟨l⟩ := s
  rw [pyStrip_mk, pyStrip_mk, dropWhile_rdropWhile_dropWhile,
    List.rdropWhile_idempotent]

-- ---------------------------------------------------------------------
-- C3: merge with an absent style key
-- ---------------------------------------------------------------------

/-- C3 (counterexample): the claim "for every style key not present in the
style map and every text, `merge(text, key)` returns `text` unchanged" is
false at the concrete input `text = "  a  "`, `key = "none"` under the
empty style map: `build_prompt` returns the stripped text `"a"`. -/
theorem C3_counterexample : build_prompt [] "  a  " (some "none") ≠ "  a  " := by
  decide

/-- C3 (amended): for every style key whose resolved form is not present in
the style map (including "none" and the empty string), `build_prompt`
returns the user text stripped of leading and trailing whitespace — hence
unchanged exactly when the text carries none. -/
theorem C3_merge_absent_key (smap : StyleMap) (text : String) (key : Option String)
    (h : smap.lookup (resolveStyleKey key) = none) :
    build_prompt smap text key = pyStrip text := by
  simp [build_prompt, h]

/-- C3 (witness): the amended theorem applied at the empty style map with
key "none" and text `"  a  "`. -/
theorem C3_merge_absent_key_witness :
    ([] : StyleMap).lookup (resolveStyleKey (some "none")) = none ∧
      build_prompt [] "  a  " (some "none") = pyStrip "  a  " :=
  ⟨by decide, C3_merge_absent_key [] "  a  " (some "none") (by decide)⟩

-- ---------------------------------------------------------------------
-- C5: merge is total and falls back to two-line concatenation
-- ---------------------------------------------------------------------

/-- C5: `build_prompt` is a total Lean function, and whenever placeholder
substitution into the (stripped) style template fails, the result is the
template and the raw user text concatenated with a blank line between and
stripped, so a final prompt string is always produced. -/
theorem C5_merge_fallback_on_format_failure (smap : StyleMap) (text : String)
    (key : Option String) (x : String × String) (ds : StyleDict)
    (hd : smap.lookup (resolveStyleKey key) = some (x :: ds))
    (hfail : pyFormat (styleTemplate (x :: ds)) (pyStrip text) = none) :
    build_prompt smap text key = pyStrip (styleTemplate (x :: ds) ++ "\n\n" ++ text) := by
  simp [build_prompt, hd, hfail]

/-- C5 (witness): a style whose template `\x7bbad\x7d` makes `str.format` raise a
`KeyError`; the merge still produces the two-line fallback string. -/
theorem C5_merge_fallback_witness :
    ([("x", [("template", "\x7bbad\x7d")])] : StyleMap).lookup (resolveStyleKey (some "x"))
        = some [("template", "\x7bbad\x7d")] ∧
      pyFormat (styleTemplate [("template", "\x7bbad\x7d")]) (pyStrip "car") = none ∧
      build_prompt [("x", [("template", "\x7bbad\x7d")])] "car" (some "x")
        = pyStrip (styleTemplate [("template", "\x7bbad\x7d")] ++ "\n\n" ++ "car") :=
  ⟨by decide, by decide,
    C5_merge_fallback_on_format_failure [("x", [("template", "\x7bbad\x7d")])] "car"
      (some "x") ("template", "\x7bbad\x7d") [] (by decide) (by decide)⟩

-- ---------------------------------------------------------------------
-- C6: refiner tries thinking mode first, retries once without it
-- ---------------------------------------------------------------------

/-- C6: the refiner always invokes the text model with the thinking
configuration first; it makes the second, plain invocation if and only if
the first raised; and when the thinking-mode attempt fails but the plain
retry returns a response, the refiner returns normally (the reasoning-mode
failure never surfaces). -/
theorem C6_refiner_thinking_then_plain (up : String) (tO pO : Except String Resp) :
    (refine_user_prompt up tO pO).2.head? = some CallMode.thinking ∧
    ((refine_user_prompt up tO pO).2 = [CallMode.thinking, CallMode.plain] ↔
      ∃ e, tO = .error e) ∧
    (∀ e r, tO = .error e → pO = .ok r →
      (refine_user_prompt up tO pO).1 = .ok (extractRefined up r)) := by
  cases tO <;> cases pO <;> simp [refine_user_prompt, refineModelCalls]

/-- C6 (witness): with a failing thinking-mode call and a successful plain
call, the refiner returns the text extracted from the plain response. -/
theorem C6_refiner_thinking_then_plain_witness :
    (refine_user_prompt "car" (.error "boom") (.ok ⟨.ok (some "ok"), none⟩)).1
      = .ok (extractRefined "car" ⟨.ok (some "ok"), none⟩) :=
  (C6_refiner_thinking_then_plain "car" (.error "boom")
    (.ok ⟨.ok (some "ok"), none⟩)).2.2 "boom" ⟨.ok (some "ok"), none⟩ rfl rfl

-- ---------------------------------------------------------------------
-- C8: credential/prompt validation precedes client construction
-- ---------------------------------------------------------------------

/-- C8: a blank (empty or whitespace-only) credential or prompt makes the
orchestrator fail with a 400 error before `genai.Client` is ever invoked;
and when client construction from a non-blank credential raises, the
orchestrator fails with the 400 "Invalid api_key provided" error. -/
theorem C8_validate_then_ctor (smap : StyleMap) (prompt : String)
    (image : Option ImageFile) (style : Option String) (api_key : String)
    (clientCtor : Except String Unit) (refineRes : Except String String)
    (genRes : Except String GenOut) :
    (pyStrip api_key = "" ∨ pyStrip prompt = "" →
      (∃ d, (generate smap prompt image style api_key clientCtor refineRes genRes).1
          = .httpErr 400 d) ∧
        Ev.ctorAttempt ∉
          (generate smap prompt image style api_key clientCtor refineRes genRes).2) ∧
    (pyStrip api_key ≠ "" → pyStrip prompt ≠ "" → (∃ e, clientCtor = .error e) →
      (generate smap prompt image style api_key clientCtor refineRes genRes).1
        = .httpErr 400 "Invalid api_key provided") := by
  constructor
  · intro h
    by_cases hk : pyStrip api_key = ""
    · simp [generate, hk]
    · rcases h with h | h
      · exact absurd h hk
      · simp [generate, hk, h]
  · intro hk hp he
    obtain ⟨e, rfl⟩ := he
    simp [generate, hk, hp]

/-- C8 (witness): a whitespace-only credential is rejected with a 400 and
no client-construction event appears in the trace. -/
theorem C8_validate_then_ctor_witness :
    (∃ d, (generate [] "hi" none none "   " (.ok ()) (.ok "r") (.ok ⟨"", []⟩)).1
        = .httpErr 400 d) ∧
      Ev.ctorAttempt ∉ (generate [] "hi" none none "   " (.ok ()) (.ok "r")
        (.ok ⟨"", []⟩)).2 :=
  (C8_validate_then_ctor [] "hi" none none "   " (.ok ()) (.ok "r")
    (.ok ⟨"", []⟩)).1 (Or.inl (by decide))

-- ---------------------------------------------------------------------
-- C9: the client context binding is always released
-- ---------------------------------------------------------------------

/-- C9: on every exit path of the orchestrator in which the client was
bound into the request context (`ctxSet` occurs in the trace), the trace
ends with the unconditional `ctxReset` of the `finally` block — success,
client error and server error alike. -/
theorem C9_ctx_always_released (smap : StyleMap) (prompt : String)
    (image : Option ImageFile) (style : Option String) (api_key : String)
    (clientCtor : Except String Unit) (refineRes : Except String String)
    (genRes : Except String GenOut) :
    Ev.ctxSet ∈ (generate smap prompt image style api_key clientCtor refineRes genRes).2 →
    ∃ mid, (generate smap prompt image style api_key clientCtor refineRes genRes).2
      = Ev.ctorAttempt :: Ev.ctxSet :: (mid ++ [Ev.ctxReset]) := by
  intro h
  by_cases hk : pyStrip api_key = ""
  · simp [generate, hk] at h
  · by_cases hp : pyStrip prompt = ""
    · simp [generate, hk, hp] at h
    · cases clientCtor with
      | error e => simp [generate, hk, hp] at h
      | ok u =>
        exact ⟨(generateBody smap image style refineRes genRes).2, by
          simp [generate, hk, hp]⟩

/-- C9 (witness): a successful request binds and then releases the client
context, the trace ending in `ctxReset`. -/
theorem C9_ctx_always_released_witness :
    ∃ mid, (generate [] "hi" none none "key" (.ok ()) (.ok "r") (.ok ⟨"", []⟩)).2
      = Ev.ctorAttempt :: Ev.ctxSet :: (mid ++ [Ev.ctxReset]) :=
  C9_ctx_always_released [] "hi" none none "key" (.ok ()) (.ok "r") (.ok ⟨"", []⟩)
    (by decide)

-- ---------------------------------------------------------------------
-- C2: the refiner's non-empty-output guarantee
-- ---------------------------------------------------------------------

/-- C2 (counterexample): the claim "refine returns a non-empty string for
every non-empty userPrompt" is false at the concrete input
`userPrompt = "car"` when the model response carries the whitespace-only
text `"   "`: the code returns `("   " or "car").strip() = ""`. -/
theorem C2_counterexample :
    (refine_user_prompt "car" (.ok ⟨.ok (some "   "), none⟩)
        (.ok ⟨.ok (some "   "), none⟩)).1 = .ok "" ∧ ("car" : String) ≠ "" :=
  ⟨rfl, by decide⟩

/-- C2 (amended): for every userPrompt that is non-empty after trimming,
`refine_user_prompt` returns a non-empty string provided the text taken
from the model response is not whitespace-only (it either strips to
something non-empty or is the empty string); and when text extraction
yields nothing, the result equals the original user prompt, stripped. -/
theorem C2_refine_nonblank (up : String) (resp : Resp)
    (hup : pyStrip up ≠ "")
    (hclean : pyStrip (extractCore up resp) ≠ "" ∨ extractCore up resp = "") :
    extractRefined up resp ≠ "" ∧
    (extractionEmpty resp → extractRefined up resp = pyStrip up) ∧
    (∀ pO, (refine_user_prompt up (.ok resp) pO).1 = .ok (extractRefined up resp)) := by
  refine ⟨?_, ?_, ?_⟩
  · by_cases hc : extractCore up resp = ""
    · simp [extractRefined, hc, pyOrStr, hup]
    · rcases hclean with h | h
      · simpa [extractRefined, pyOrStr, hc] using h
      · exact absurd h hc
  · intro he
    obtain ⟨h1, h2⟩ := he
    cases hj : respFallbackJoin resp with
    | none =>
      have hcore : extractCore up resp = pyStrip up := by
        simp [extractCore, h1, hj]
      by_cases hsu : pyStrip up = ""
      · simp [extractRefined, hcore, pyOrStr, hsu]
      · simp [extractRefined, hcore, pyOrStr, hsu, pyStrip_idem]
    | some j =>
      rw [hj] at h2
      have hj0 : j = "" := by simpa using h2
      have hcore : extractCore up resp = "" := by
        simp [extractCore, h1, hj, hj0]
      simp [extractRefined, hcore, pyOrStr]
  · intro pO
    rfl

/-- C2 (witness): the amended theorem at `userPrompt = "car"` with a
response whose text is `"nice"`. -/
theorem C2_refine_nonblank_witness :
    extractRefined "car" ⟨.ok (some "nice"), none⟩ ≠ "" ∧
    (extractionEmpty (⟨.ok (some "nice"), none⟩ : Resp) →
      extractRefined "car" ⟨.ok (some "nice"), none⟩ = pyStrip "car") ∧
    (∀ pO, (refine_user_prompt "car" (.ok ⟨.ok (some "nice"), none⟩) pO).1
      = .ok (extractRefined "car" ⟨.ok (some "nice"), none⟩)) :=
  C2_refine_nonblank "car" ⟨.ok (some "nice"), none⟩ (by decide) (Or.inl (by decide))

-- ---------------------------------------------------------------------
-- C1: invalid image is rejected with a 400, but only after the refiner
-- ---------------------------------------------------------------------

/-- C1 (counterexample): the claim "the orchestrator rejects an invalid
image and never invokes the Prompt Refiner" is false at the concrete
request with MIME type `"text/plain"`: the outcome is indeed a 400, but
the refiner-call event is in the trace, because the endpoint refines the
prompt (line 217) before it validates the image part (lines 231-240). -/
theorem C1_counterexample :
    (generate [] "hi" (some ⟨some "text/plain", [1]⟩) (some "none") "key"
        (.ok ()) (.ok "refined") (.ok ⟨"", []⟩)).1
      = Outcome.httpErr 400 "image must be of type image/*" ∧
    Ev.refinerCalled ∈ (generate [] "hi" (some ⟨some "text/plain", [1]⟩) (some "none")
        "key" (.ok ()) (.ok "refined") (.ok ⟨"", []⟩)).2 := by
  decide

/-- C1 (amended): for every request carrying an invalid image (MIME type
not starting with "image/", empty payload, or size strictly greater than
7 MiB) that passes the credential/prompt checks and client construction,
and whose refiner call returns normally, the orchestrator rejects with a
400-class error and never invokes the Image/Text Generator — but the
Prompt Refiner has already been invoked before the rejection. -/
theorem C1_invalid_image_no_generator (smap : StyleMap) (prompt : String)
    (img : ImageFile) (style : Option String) (api_key : String) (refined : String)
    (genRes : Except String GenOut)
    (hk : pyStrip api_key ≠ "") (hp : pyStrip prompt ≠ "")
    (hinv : pyStartsWith (img.content_type.getD "") "image/" = false ∨
      img.data = [] ∨ MAX_IMAGE_BYTES < img.data.length) :
    (∃ d, (generate smap prompt (some img) style api_key (.ok ()) (.ok refined) genRes).1
        = .httpErr 400 d) ∧
    Ev.generatorCalled ∉
      (generate smap prompt (some img) style api_key (.ok ()) (.ok refined) genRes).2 ∧
    Ev.refinerCalled ∈
      (generate smap prompt (some img) style api_key (.ok ()) (.ok refined) genRes).2 := by
  have hval : ∃ d, validateImage (some img) = some (400, d) := by
    simp only [validateImage]
    split_ifs with h1 h2 h3
    · exact ⟨_, rfl⟩
    · exact ⟨_, rfl⟩
    · exact ⟨_, rfl⟩
    · rcases hinv with h | h | h
      · exact absurd h h1
      · exact absurd h h2
      · exact absurd h h3
  obtain ⟨d, hval⟩ := hval
  have hbody : generateBody smap (some img) style (.ok refined) genRes
      = (.httpErr 400 d, [.refinerCalled]) := by
    simp [generateBody, hval]
  have hout : (generate smap prompt (some img) style api_key (.ok ()) (.ok refined)
      genRes).1 = .httpErr 400 d := by
    simp [generate, hk, hp, hbody]
  have htr : (generate smap prompt (some img) style api_key (.ok ()) (.ok refined)
      genRes).2 = [.ctorAttempt, .ctxSet, .refinerCalled, .ctxReset] := by
    simp [generate, hk, hp, hbody]
  refine ⟨⟨d, hout⟩, ?_, ?_⟩
  · rw [htr]; decide
  · rw [htr]; decide

/-- C1 (witness): the amended theorem at a request carrying an image file
with an empty payload. -/
theorem C1_invalid_image_no_generator_witness :
    (∃ d, (generate [] "hi" (some ⟨some "image/png", []⟩)
        none "key" (.ok ()) (.ok "r") (.ok ⟨"", []⟩)).1 = .httpErr 400 d) ∧
    Ev.generatorCalled ∉ (generate [] "hi" (some ⟨some "image/png", []⟩)
      none "key" (.ok ()) (.ok "r") (.ok ⟨"", []⟩)).2 ∧
    Ev.refinerCalled ∈ (generate [] "hi" (some ⟨some "image/png", []⟩)
      none "key" (.ok ()) (.ok "r") (.ok ⟨"", []⟩)).2 :=
  C1_invalid_image_no_generator [] "hi" ⟨some "image/png", []⟩ none "key" "r"
    (.ok ⟨"", []⟩) (by decide) (by decide) (Or.inr (Or.inl rfl))

-- ---------------------------------------------------------------------
-- C10: per-chunk precedence and silent skipping
-- ---------------------------------------------------------------------

/-- C10: per streamed chunk at most one accumulator changes; a first part
carrying truthy text is recorded only as text (no image record, even if
inline data is also present); and a chunk with no candidates, no content
or no parts leaves the state untouched. -/
theorem C10_text_precedence (st : List String × List ImgRec) (ch : Chunk) :
    ((stepChunk st ch).1 = st.1 ∨ (stepChunk st ch).2 = st.2) ∧
    (∀ p t, chunkFirstPart ch = some p → p.text = some t → t ≠ "" →
      stepChunk st ch = (st.1 ++ [t], st.2)) ∧
    (chunkFirstPart ch = none → stepChunk st ch = st) := by
  have hfst : ∀ p, (stepInline st p).1 = st.1 := by
    intro p
    cases hi : p.inline_data with
    | none => simp [stepInline, hi]
    | some idata =>
      cases hd : idata.data with
      | none => simp [stepInline, hi, hd]
      | some l =>
        cases l with
        | nil => simp [stepInline, hi, hd]
        | cons b bs => simp [stepInline, hi, hd]
  refine ⟨?_, ?_, ?_⟩
  · cases hcp : chunkFirstPart ch with
    | none => left; simp [stepChunk, hcp]
    | some p =>
      cases hpt : p.text with
      | none => left; simp [stepChunk, hcp, hpt, hfst]
      | some t =>
        by_cases ht : t = ""
        · left; simp [stepChunk, hcp, hpt, ht, hfst]
        · right; simp [stepChunk, hcp, hpt, ht]
  · intro p t hcp hpt ht
    simp [stepChunk, hcp, hpt, ht]
  · intro hcp
    simp [stepChunk, hcp]

/-- C10 (witness): a first part carrying both the text `"hi"` and inline
binary data is recorded only as text. -/
theorem C10_text_precedence_witness :
    stepChunk ([], []) ⟨some [⟨some ⟨some [⟨some "hi",
        some ⟨some "image/jpeg", some [1, 2]⟩⟩]⟩⟩]⟩
      = (([] : List String) ++ ["hi"], ([] : List ImgRec)) :=
  (C10_text_precedence ([], []) ⟨some [⟨some ⟨some [⟨some "hi",
      some ⟨some "image/jpeg", some [1, 2]⟩⟩]⟩⟩]⟩).2.1
    ⟨some "hi", some ⟨some "image/jpeg", some [1, 2]⟩⟩ "hi" rfl rfl (by decide)

-- ---------------------------------------------------------------------
-- C7: the generator is the reducer over streamed chunks
-- ---------------------------------------------------------------------

theorem stepInline_eq (st : List String × List ImgRec) (p : GPart) :
    stepInline st p = (st.1, st.2 ++ (specImageInline p).toList) := by
  cases hi : p.inline_data with
  | none => simp [stepInline, specImageInline, hi]
  | some idata =>
    cases hd : idata.data with
    | none => simp [stepInline, specImageInline, hi, hd]
    | some l =>
      cases l with
      | nil => simp [stepInline, specImageInline, hi, hd]
      | cons b bs => simp [stepInline, specImageInline, hi, hd]

theorem stepChunk_eq (st : List String × List ImgRec) (ch : Chunk) :
    stepChunk st ch
      = (st.1 ++ (specText ch).toList, st.2 ++ (specImage ch).toList) := by
  cases hcp : chunkFirstPart ch with
  | none => simp [stepChunk, specText, specImage, hcp]
  | some p =>
    cases hpt : p.text with
    | none => simp [stepChunk, specText, specImage, hcp, hpt, stepInline_eq]
    | some t =>
      by_cases ht : t = "" <;>
        simp [stepChunk, specText, specImage, hcp, hpt, ht, stepInline_eq]

theorem foldl_stepChunk (chunks : List Chunk) (ts : List String) (is : List ImgRec) :
    chunks.foldl stepChunk (ts, is)
      = (ts ++ chunks.filterMap specText, is ++ chunks.filterMap specImage) := by
  induction chunks generalizing ts is with
  | nil => simp
  | cons ch rest ih =>
    rw [List.foldl_cons, stepChunk_eq, ih]
    cases h1 : specText ch <;> cases h2 : specImage ch <;>
      simp [List.filterMap_cons, h1, h2]

-- ---------------------------------------------------------------------
-- C4: a substituted template contains the refined text
-- ---------------------------------------------------------------------

theorem pfGo_append_lit (v : String) (l r : List Char)
    (h : ∀ c ∈ l, c ≠ lbrace ∧ c ≠ rbrace) :
    pfGo v .lit [] (l ++ r) = (fun t => l ++ t) <$> pfGo v .lit [] r := by
  induction l with
  | nil =>
    simp only [List.nil_append]
    cases pfGo v .lit [] r <;> simp
  | cons c l ih =>
    have hc := h c (by simp)
    have hrest : ∀ x ∈ l, x ≠ lbrace ∧ x ≠ rbrace := fun x hx => h x (by simp [hx])
    rw [List.cons_append]
    show pfGo v .lit [] (c :: (l ++ r)) = _
    simp only [pfGo]
    rw [if_neg hc.1, if_neg hc.2, ih hrest]
    cases pfGo v .lit [] r <;> simp

theorem pfGo_lit_only (v : String) (l : List Char)
    (h : ∀ c ∈ l, c ≠ lbrace ∧ c ≠ rbrace) :
    pfGo v .lit [] l = some l := by
  have h0 := pfGo_append_lit v l [] h
  rw [List.append_nil] at h0
  rw [h0]
  simp [pfGo]

theorem pfGo_placeholder (v : String) (r : List Char) :
    pfGo v .lit [] (lbrace :: (upField ++ (rbrace :: r)))
      = (fun t => v.data ++ t) <$> pfGo v .lit [] r := rfl

/-- C4 (counterexample): the claim "for every non-empty refined text and
every present style template, the merge contains the refined text as a
substring" is false at the concrete template `"hello"` (present, but
without the substitution placeholder): the merge result is `"hello"`,
which does not contain `"car"`. -/
theorem C4_counterexample :
    ¬ ("car".data <:+:
        (build_prompt [("x", [("template", "hello")])] "car" (some "x")).data) := by
  decide

set_option linter.unusedVariables false in
/-- C4 (amended): for every non-empty refined text with no leading or
trailing whitespace and every present style entry whose template is
brace-free literal text around one `\x7buser_prompt\x7d` placeholder,
`build_prompt` produces a string containing the refined text as a
substring. -/
theorem C4_merge_contains_refined (smap : StyleMap) (key : Option String)
    (x : String × String) (ds : StyleDict) (l1 l2 : List Char) (refined : String)
    (hd : smap.lookup (resolveStyleKey key) = some (x :: ds))
    (htpl : (styleTemplate (x :: ds)).data = l1 ++ ("\x7buser_prompt\x7d").data ++ l2)
    (hl1 : ∀ c ∈ l1, c ≠ lbrace ∧ c ≠ rbrace)
    (hl2 : ∀ c ∈ l2, c ≠ lbrace ∧ c ≠ rbrace)
    (href : refined ≠ "") (hstr : pyStrip refined = refined) :
    refined.data <:+: (build_prompt smap refined key).data := by
  have hph : ("\x7buser_prompt\x7d").data = lbrace :: (upField ++ [rbrace]) := rfl
  rw [hph] at htpl
  simp only [List.cons_append, List.append_assoc, List.singleton_append,
    List.nil_append] at htpl
  have hfmt : pyFormat (styleTemplate (x :: ds)) refined
      = some ⟨l1 ++ (refined.data ++ l2)⟩ := by
    unfold pyFormat
    rw [htpl, pfGo_append_lit refined l1 _ hl1, pfGo_placeholder,
      pfGo_lit_only refined l2 hl2]
    rfl
  have hbp : build_prompt smap refined key = ⟨l1 ++ (refined.data ++ l2)⟩ := by
    simp [build_prompt, hd, hstr, hfmt]
  rw [hbp]
  exact ⟨l1, l2, by simp⟩

/-- C4 (witness): the amended theorem at the template
`"pre \x7buser_prompt\x7d post"` and refined text `"car"`: the merge result
contains `"car"`. -/
theorem C4_merge_contains_refined_witness :
    "car".data <:+:
      (build_prompt [("x", [("template", "pre \x7buser_prompt\x7d post")])] "car"
        (some "x")).data :=
  C4_merge_contains_refined [("x", [("template", "pre \x7buser_prompt\x7d post")])]
    (some "x") ("template", "pre \x7buser_prompt\x7d post") [] "pre ".data " post".data
    "car" (by decide) (by decide) (by decide) (by decide) (by decide) (by decide)

/-- C7: the generator equals the specification reducer over the streamed
chunks: each chunk contributes the truthy text of the first content part
of its first candidate to the text accumulator, else (for truthy inline
binary data) an image record with defaulted MIME type, base64 payload and
data URL, in stream arrival order; the returned text is the concatenation
of the accumulated fragments, trimmed. -/
theorem C7_generator_reducer (chunks : List Chunk) :
    generate_image_and_text chunks
      = ⟨pyStrip (String.join (chunks.filterMap specText)),
          chunks.filterMap specImage⟩ := by
  unfold generate_image_and_text
  rw [foldl_stepChunk]
  simp
